import Mathlib

/-!
Verification development for the arnold-usd scene-graph translator
(src/translator/reader/reader.h and src/translator/reader/utils.cpp).

The definitions below are a shallow embedding of the reader code:
- the `ReadStep` state machine and `ConnectionType` enum (reader.h),
- `UsdArnoldReaderThreadContext::ProcessConnection` / `ProcessConnections` /
  `AddConnection` (utils.cpp),
- the `UsdArnoldReader` orchestration (`ReadStage`, `Read`, the setters,
  `ClearNodes`) and the lock wiring (`SetDispatcher`, `CreateArnoldNode`),
- the traversal loop of `UsdArnoldReader::ReaderThread` with its
  inherited-primvars stack,
- `ReadMatrix` motion-blur key counting.

Arnold nodes are identified by their name (a `String`); effects on the Arnold
universe (setting attributes, linking outputs) are recorded as explicit
`Effect` values instead of mutating opaque `AtNode` pointers.
-/

namespace ArnoldUsd

/-- The reader-wide state machine, `UsdArnoldReader::ReadStep` (reader.h). -/
inductive ReadStep where
  | READ_NOT_STARTED
  | READ_TRAVERSE
  | READ_PROCESS_CONNECTIONS
  | READ_DANGLING_CONNECTIONS
  | READ_FINISHED
deriving DecidableEq, Repr

/-- The numeric value of each enumerator, as written in reader.h
(`READ_NOT_STARTED = 0`, `READ_TRAVERSE = 1`, then implicit increments). -/
def ReadStep.toNat : ReadStep → Nat
  | .READ_NOT_STARTED => 0
  | .READ_TRAVERSE => 1
  | .READ_PROCESS_CONNECTIONS => 2
  | .READ_DANGLING_CONNECTIONS => 3
  | .READ_FINISHED => 4

/-- `UsdArnoldReader::ConnectionType` (reader.h). -/
inductive ConnectionType where
  | CONNECTION_LINK
  | CONNECTION_PTR
  | CONNECTION_ARRAY
deriving DecidableEq, Repr

/-- `UsdArnoldReaderThreadContext::Connection` (reader.h). The source node is
identified by its name. -/
structure Connection where
  sourceNode : String
  sourceAttr : String
  target : String
  type : ConnectionType
  outputElement : String
deriving DecidableEq, Repr

/-- Helper for `getlineTokens`: consumes the remaining characters `cs` while
building the current token `cur` (stored reversed); a space closes the
current token, and reading resumes only if characters remain (matching
`std::getline` failing at end of stream). -/
def getlineTokensAux (cs : List Char) (cur : List Char) : List String :=
  match cs with
  | [] => [String.mk cur.reverse]
  | c :: rest =>
    if c = ' ' then
      String.mk cur.reverse ::
        (match rest with
         | [] => []
         | _ :: _ => getlineTokensAux rest [])
    else getlineTokensAux rest (c :: cur)

/-- Tokenization of an array-connection target by
`std::getline(ss, token, ' ')` (utils.cpp, ProcessConnection, ARRAY branch):
splits at single spaces; a trailing delimiter does not produce a final empty
token, and an empty string produces no token at all. -/
def getlineTokens (s : String) : List String :=
  match s.data with
  | [] => []
  | cs => getlineTokensAux cs []

/-- The part of the USD stage that connection resolution consults:
`prims` are the paths at which `GetPrimAtPath` finds a valid prim;
`readable` are the prims whose registered prim reader, when run by
`ReadPrimitive`, creates an Arnold node carrying the prim path as its name;
`prototypes` are the prims answering `IsPrototype()`. -/
structure Stage where
  prims : List String
  readable : List String
  prototypes : List String
deriving DecidableEq, Repr

/-- Observable effects of connection resolution on the Arnold universe. -/
inductive Effect where
  | setArray (node attr : String) (targets : List String)
  | setPtr (node attr : String) (target : String)
  | linkOutput (target : String) (channel : Char) (node attr : String)
  | link (target node attr : String)
  | createUsdProc (name : String)
deriving DecidableEq, Repr

/-- Result of looking a connection target up, possibly force-materializing it
(utils.cpp, ProcessConnection). `existing` is the set of Arnold node names
after the lookup: forced materialization adds the created node to it. -/
structure LookupResult where
  found : Bool
  existing : List String
  proxyCreated : Bool
deriving DecidableEq, Repr

/-- Lookup of one connection target, as done inside
`UsdArnoldReaderThreadContext::ProcessConnection`: first `LookupNode`; if the
node is missing and we are in the dangling step, fetch the prim at that path
and `ReadPrimitive` it (forced materialization), then look it up again. For a
single `CONNECTION_PTR` target whose prim is a prototype and whose reader
produced no node, a nested "usd" procedural is created under the target's
name (`isPtr` is false in the ARRAY branch, which has no such special case).
-/
def lookupOrMaterialize (step : ReadStep) (stage : Stage) (existing : List String)
    (target : String) (isPtr : Bool) : LookupResult :=
  if existing.contains target then ⟨true, existing, false⟩
  else if step = ReadStep.READ_DANGLING_CONNECTIONS ∧ stage.prims.contains target then
    if stage.readable.contains target then ⟨true, target :: existing, false⟩
    else if isPtr ∧ stage.prototypes.contains target then ⟨true, target :: existing, true⟩
    else ⟨false, existing, false⟩
  else ⟨false, existing, false⟩

/-- The token loop of the `CONNECTION_ARRAY` branch of `ProcessConnection`
(utils.cpp): resolve each whitespace-separated name in turn, pushing the
resolved node into `vec` (the C++ `vecNodes`); on the first name that cannot
be resolved (nor force-materialized in the dangling step) the whole
resolution fails — note that the C++ code `return false` at that point, so no
array is ever set from a partial `vecNodes`. Nodes materialized for earlier
tokens persist in `existing`. -/
def resolveArrayTokens (step : ReadStep) (stage : Stage) (tokens : List String)
    (existing : List String) (vec : List String) :
    Bool × List String × List String :=
  match tokens with
  | [] => (true, existing, vec)
  | t :: ts =>
    let r := lookupOrMaterialize step stage existing t false
    if r.found then resolveArrayTokens step stage ts r.existing (vec ++ [t])
    else (false, r.existing, [])

/-- The string of recognized output components, `supportedElems` in
`ProcessConnection` (utils.cpp). -/
def supportedElems : String := "xyzrgba"

/-- The `CONNECTION_LINK` branch of `ProcessConnection` once the target node
exists (utils.cpp): if the `outputElement` has length greater than one, its
second-to-last character is a colon and its last character occurs in
`supportedElems`, a single output channel is linked via `AiNodeLinkOutput`;
otherwise the whole output is linked via `AiNodeLink`. -/
def linkEffect (conn : Connection) : Effect :=
  let cs := conn.outputElement.data
  if cs.length > 1 ∧ cs.getD (cs.length - 2) ' ' = ':'
      ∧ supportedElems.data.contains (cs.getLastD ' ') then
    Effect.linkOutput conn.target (cs.getLastD ' ') conn.sourceNode conn.sourceAttr
  else
    Effect.link conn.target conn.sourceNode conn.sourceAttr

/-- Result of `ProcessConnection`: the returned boolean, the Arnold node
names existing afterwards (forced materialization may have added some), and
the effects applied to the universe. -/
structure ProcResult where
  success : Bool
  existing : List String
  effects : List Effect
deriving DecidableEq, Repr

/-- `UsdArnoldReaderThreadContext::ProcessConnection` (utils.cpp). For
`CONNECTION_ARRAY`, the target is split at spaces and every token must
resolve before `AiNodeSetArray` is called; otherwise the function returns
false having set nothing. For the other kinds, a single lookup (with forced
materialization and the prototype "usd" proxy special case in the dangling
step) is followed by `AiNodeSetPtr` for `CONNECTION_PTR` or by the link logic
for `CONNECTION_LINK`. -/
def ProcessConnection (step : ReadStep) (stage : Stage) (existing : List String)
    (conn : Connection) : ProcResult :=
  if conn.type = ConnectionType.CONNECTION_ARRAY then
    let r := resolveArrayTokens step stage (getlineTokens conn.target) existing []
    if r.1 then ⟨true, r.2.1, [Effect.setArray conn.sourceNode conn.sourceAttr r.2.2]⟩
    else ⟨false, r.2.1, []⟩
  else
    let r := lookupOrMaterialize step stage existing conn.target
        (conn.type = ConnectionType.CONNECTION_PTR)
    if r.found then
      let creation : List Effect :=
        if r.proxyCreated then [Effect.createUsdProc conn.target] else []
      if conn.type = ConnectionType.CONNECTION_PTR then
        ⟨true, r.existing, creation ++ [Effect.setPtr conn.sourceNode conn.sourceAttr conn.target]⟩
      else
        ⟨true, r.existing, creation ++ [linkEffect conn]⟩
    else ⟨false, r.existing, []⟩

/-- Accumulated state of a `ProcessConnections` pass: the connections kept as
dangling, the Arnold nodes existing, and the effects applied so far. -/
structure PassState where
  dangling : List Connection
  existing : List String
  effects : List Effect
deriving DecidableEq, Repr

/-- `UsdArnoldReaderThreadContext::ProcessConnections` (utils.cpp): run
`ProcessConnection` on every stacked connection in the strict
`READ_PROCESS_CONNECTIONS` step; any connection for which it returns false is
kept in the dangling list. -/
def ProcessConnectionsLoop (stage : Stage) (conns : List Connection)
    (st : PassState) : PassState :=
  match conns with
  | [] => st
  | c :: cs =>
    let r := ProcessConnection ReadStep.READ_PROCESS_CONNECTIONS stage st.existing c
    let st2 : PassState :=
      if r.success then ⟨st.dangling, r.existing, st.effects ++ r.effects⟩
      else ⟨st.dangling ++ [c], r.existing, st.effects⟩
    ProcessConnectionsLoop stage cs st2

/-- Per-worker thread-context state relevant to `AddConnection`. -/
structure ThreadContextState where
  connections : List Connection
  existing : List String
  effects : List Effect
deriving DecidableEq, Repr

/-- `UsdArnoldReaderThreadContext::AddConnection` (utils.cpp): in the
`READ_TRAVERSE` step the connection is appended to the worker-local deferred
list; in the `READ_DANGLING_CONNECTIONS` step it is resolved immediately via
`ProcessConnection`; in every other step the function body is skipped
entirely and the connection is discarded. -/
def AddConnection (step : ReadStep) (stage : Stage) (st : ThreadContextState)
    (conn : Connection) : ThreadContextState :=
  if step = ReadStep.READ_TRAVERSE then
    { st with connections := st.connections ++ [conn] }
  else if step = ReadStep.READ_DANGLING_CONNECTIONS then
    let r := ProcessConnection step stage st.existing conn
    { st with existing := r.existing, effects := st.effects ++ r.effects }
  else st

/-- `TimeSettings` (declared in translator/utils.h). Times are rationals. -/
structure TimeSettings where
  frame : ℚ
  motionBlur : Bool
  motionStart : ℚ
  motionEnd : ℚ
deriving DecidableEq, Repr

/-- Modelled from the spec: the start of the shutter interval. `TimeSettings`
is declared in translator/utils.h, which is not among the sources here; the
spec describes the time settings as holding a shutter interval
`[motionStart, motionEnd]` used for motion-blur interval sampling. -/
def TimeSettings.start (t : TimeSettings) : ℚ := t.motionStart

/-- Modelled from the spec: the end of the shutter interval (see
`TimeSettings.start`; named `end_` because `end` is reserved in Lean). -/
def TimeSettings.end_ (t : TimeSettings) : ℚ := t.motionEnd

/-- State of a `UsdArnoldReader` (reader.h). Nodes are identified by name;
`destroyedNodes` is a ghost log of the nodes passed to `AiNodeDestroy`. -/
structure ReaderState where
  procParent : Option String
  time : TimeSettings
  convert : Bool
  debug : Bool
  threadCount : Nat
  nodes : List String
  defaultShader : Option String
  filename : String
  cacheId : Int
  readStep : ReadStep
  destroyedNodes : List String
deriving DecidableEq, Repr

/-- `UsdArnoldReader::ClearNodes` (utils.cpp): when there is no procedural
parent every produced node is destroyed; the node list is cleared and the
default shader pointer is reset in all cases. -/
def ClearNodes (st : ReaderState) : ReaderState :=
  { st with
    destroyedNodes :=
      if st.procParent = none then st.destroyedNodes ++ st.nodes else st.destroyedNodes
    nodes := []
    defaultShader := none }

/-- `UsdArnoldReader::SetFrame` (utils.cpp): clear the nodes, then store the
new frame. -/
def SetFrame (st : ReaderState) (frame : ℚ) : ReaderState :=
  let st2 := ClearNodes st
  { st2 with time := { st2.time with frame := frame } }

/-- `UsdArnoldReader::SetMotionBlur` (utils.cpp): clear the nodes, then store
the new motion-blur window. -/
def SetMotionBlur (st : ReaderState) (motionBlur : Bool) (motionStart motionEnd : ℚ) :
    ReaderState :=
  let st2 := ClearNodes st
  { st2 with time :=
      { st2.time with motionBlur := motionBlur, motionStart := motionStart,
                      motionEnd := motionEnd } }

/-- `UsdArnoldReader::SetDebug` (utils.cpp): clear the nodes, then store the
debug flag. -/
def SetDebug (st : ReaderState) (b : Bool) : ReaderState :=
  let st2 := ClearNodes st
  { st2 with debug := b }

/-- `UsdArnoldReader::SetConvertPrimitives` (utils.cpp): clear the nodes,
then store the conversion flag. -/
def SetConvertPrimitives (st : ReaderState) (b : Bool) : ReaderState :=
  let st2 := ClearNodes st
  { st2 with convert := b }

/-- The inputs `ReadStage` depends on: whether the stage pointer is valid,
the explicit root path with its prim's existence and activity, the nodes the
traversal produces, and the dangling connections left after the process
pass. -/
structure StageEnv where
  stageValid : Bool
  path : String
  pathPrimExists : Bool
  pathPrimActive : Bool
  newNodes : List String
  dangling : List Connection
deriving DecidableEq, Repr

/-- `UsdArnoldReader::ReadStage` (utils.cpp), as a state transformer paired
with the ordered list of assignments made to `_readStep` during the call.
A null stage, a non-empty object path whose prim does not exist, or one whose
prim is inactive, each return early without touching `_readStep`; otherwise
the read performs the traverse, process-connections, dangling-connections and
finished steps in order, assigning `_readStep` at the start of each. -/
def ReadStage (st : ReaderState) (env : StageEnv) : ReaderState × List ReadStep :=
  if env.stageValid = false then (st, [])
  else if env.path ≠ "" ∧ env.pathPrimExists = false then (st, [])
  else if env.path ≠ "" ∧ env.pathPrimActive = false then (st, [])
  else
    let st1 := { st with readStep := ReadStep.READ_TRAVERSE,
                         nodes := st.nodes ++ env.newNodes }
    let st2 := { st1 with readStep := ReadStep.READ_PROCESS_CONNECTIONS }
    let st3 := { st2 with readStep := ReadStep.READ_DANGLING_CONNECTIONS }
    let st4 := { st3 with readStep := ReadStep.READ_FINISHED }
    (st4, [ReadStep.READ_TRAVERSE, ReadStep.READ_PROCESS_CONNECTIONS,
           ReadStep.READ_DANGLING_CONNECTIONS, ReadStep.READ_FINISHED])

/-- The filename overload `UsdArnoldReader::Read(filename, overrides, path)`
(utils.cpp): if the node list is non-empty the call returns immediately;
otherwise the filename is stored, the stage is read, and the filename is
cleared again. -/
def ReadFile (st : ReaderState) (filename : String) (env : StageEnv) : ReaderState :=
  if st.nodes ≠ [] then st
  else
    let st1 := { st with filename := filename }
    let st2 := (ReadStage st1 env).1
    { st2 with filename := "" }

/-- The cache-id overload `UsdArnoldReader::Read(cacheId, path)` (utils.cpp):
if the node list is non-empty the call returns immediately; otherwise the
cache id is stored and, when the cached stage is found, the stage is read. -/
def ReadCacheId (st : ReaderState) (cacheId : Int) (cacheValid : Bool)
    (env : StageEnv) : ReaderState :=
  if st.nodes ≠ [] then st
  else
    let st1 := { st with cacheId := cacheId }
    if cacheValid = false then st1 else (ReadStage st1 env).1

/-- The three dedicated per-thread-context lock handles (reader.h): a field
is true when the corresponding `AtCritSec` has been initialized (is
non-null). -/
structure ThreadContextLocks where
  createNodeLock : Bool
  addConnectionLock : Bool
  addNodeNameLock : Bool
deriving DecidableEq, Repr

/-- Lock handles of a freshly constructed `UsdArnoldReaderThreadContext`
(reader.h constructor): all null. -/
def initLocks : ThreadContextLocks := ⟨false, false, false⟩

/-- `UsdArnoldReaderThreadContext::SetDispatcher` (utils.cpp): the three lock
handles are initialized exactly when a work dispatcher is supplied. -/
def SetDispatcher (hasDispatcher : Bool) (l : ThreadContextLocks) : ThreadContextLocks :=
  if hasDispatcher then ⟨true, true, true⟩ else l

/-- In `UsdArnoldReader::ReadStage` (utils.cpp), the work dispatcher is
created precisely when the configured thread count is zero. -/
def stageHasDispatcher (threadCount : Nat) : Bool := threadCount == 0

/-- The lock handles of each worker's thread context after `ReadStage` wires
it up with `SetDispatcher(_dispatcher)` for a given configured thread
count. -/
def workerLocks (threadCount : Nat) : ThreadContextLocks :=
  SetDispatcher (stageHasDispatcher threadCount) initLocks

/-- Whether `UsdArnoldReaderThreadContext::CreateArnoldNode` (utils.cpp)
enters its critical section: it does iff `_createNodeLock` is non-null. -/
def createNodeTakesLock (l : ThreadContextLocks) : Bool := l.createNodeLock

/-- Whether `UsdArnoldReaderThreadContext::AddConnection` (utils.cpp) enters
its critical section: it does iff `_addConnectionLock` is non-null. -/
def addConnectionTakesLock (l : ThreadContextLocks) : Bool := l.addConnectionLock

/-- Whether `UsdArnoldReaderThreadContext::AddNodeName` (utils.cpp) enters
its critical section: it does iff `_addNodeNameLock` is non-null. -/
def addNodeNameTakesLock (l : ThreadContextLocks) : Bool := l.addNodeNameLock

/-- The data of one USD prim that the `ReaderThread` traversal loop consults
(utils.cpp): its path (`name`), type name, `IsInstanceable()`, whether it is
a `UsdGeomImageable`, whether its authored visibility evaluates to invisible
at the current frame, its authored purpose (none when not authored), and the
inheritable primvars newly authored at this prim. -/
structure PrimInfo where
  name : String
  typeName : String
  instanceable : Bool
  imageable : Bool
  invisible : Bool
  purpose : Option String
  authored : List String
deriving DecidableEq, Repr

/-- A USD prim subtree: its own data plus its children in traversal order. -/
inductive Prim where
  | node (info : PrimInfo) (children : List Prim)

/-- The pruning predicate of `ReaderThread` (utils.cpp): only prims that are
`UsdGeomImageable` or whose type name starts with "Arnold" are tested; they
are pruned when authored visibility is invisible, or when an authored purpose
differs from both "default" and the reader's accepted purpose. -/
def shouldPrune (readerPurpose : String) (p : PrimInfo) : Bool :=
  if p.imageable || (p.typeName.data.take 6 == "Arnold".data) then
    p.invisible ||
      (match p.purpose with
       | some pur => decide (pur ≠ "default" ∧ pur ≠ readerPurpose)
       | none => false)
  else false

/-- `UsdGeomPrimvarsAPI::FindIncrementallyInheritablePrimvars` as the loop
uses it: the result is empty when this prim authors nothing new (meaning
"keep the parent's set"), and the parent's set extended by the newly
authored primvars otherwise. -/
def incrementalPrimvars (parent authored : List String) : List String :=
  if authored = [] then [] else parent ++ authored

/-- State carried by the `ReaderThread` traversal loop: the inherited
primvars stack (head of the list is the top, `back()` in the C++ vector),
the shared visit counter used for round-robin partitioning, and the log of
`ReadPrimitive` calls with the primvars set visible to each (the top of the
stack at the moment of the call). -/
structure TraverseState where
  primvarsStack : List (List String)
  index : Nat
  visits : List (String × List String)
deriving DecidableEq, Repr

mutual
/-- One iteration group of the `ReaderThread` loop (utils.cpp) for the prim
and, recursively, its subtree. An untyped non-instanceable prim is skipped on
both its pre and post visits (no push, no pop) while its children are still
traversed. Otherwise the pre visit pushes the incrementally inherited
primvars (re-pushing the parent's set when the increment is empty); a pruned
prim skips its descendants and — because the code advances the iterator past
the post visit (`iter++`) — its pushed entry is never popped; an unpruned
prim is converted when the round-robin test passes, its children are
traversed, and its post visit pops the stack. -/
def visitPrim (readerPurpose : String) (multithread : Bool) (threadId threadCount : Nat)
    (p : Prim) (s : TraverseState) : TraverseState :=
  match p with
  | Prim.node info children =>
    if info.typeName = "" ∧ info.instanceable = false then
      visitPrims readerPurpose multithread threadId threadCount children s
    else
      let parentSet := s.primvarsStack.headD []
      let pv := incrementalPrimvars parentSet info.authored
      let pushed := if pv = [] then parentSet else pv
      let stack1 := pushed :: s.primvarsStack
      if shouldPrune readerPurpose info then
        { s with primvarsStack := stack1 }
      else
        let index2 := if multithread then s.index + 1 else s.index
        let owned := multithread = false ∨ (s.index + threadId) % threadCount = 0
        let visits2 := if owned then s.visits ++ [(info.name, pushed)] else s.visits
        let s3 := visitPrims readerPurpose multithread threadId threadCount children
          ⟨stack1, index2, visits2⟩
        { s3 with primvarsStack := s3.primvarsStack.tail }

/-- Traversal of a list of sibling subtrees, in order. -/
def visitPrims (readerPurpose : String) (multithread : Bool) (threadId threadCount : Nat)
    (ps : List Prim) (s : TraverseState) : TraverseState :=
  match ps with
  | [] => s
  | p :: rest =>
    visitPrims readerPurpose multithread threadId threadCount rest
      (visitPrim readerPurpose multithread threadId threadCount p s)
end

/-- `UsdArnoldReader::ReaderThread` (utils.cpp): the primvars stack starts
with one empty entry, the visit counter at zero, and the stage's root prims
are traversed in order; `multithread` is `threadCount > 1`. -/
def ReaderThread (readerPurpose : String) (threadId threadCount : Nat)
    (roots : List Prim) : TraverseState :=
  visitPrims readerPurpose (decide (threadCount > 1)) threadId threadCount roots
    ⟨[[]], 0, []⟩

/-- The rational number -1/10 (written with an explicit numerator and
denominator so that it evaluates by kernel reduction). -/
def negPointOne : ℚ := ⟨-1, 10, by norm_num, by norm_num⟩

/-- The rational number 1/10. -/
def pointOne : ℚ := ⟨1, 10, by norm_num, by norm_num⟩

/-- The rational number 1/20. -/
def oneTwentieth : ℚ := ⟨1, 20, by norm_num, by norm_num⟩

/-- The rational number 1/2. -/
def oneHalf : ℚ := ⟨1, 2, by norm_num, by norm_num⟩

/-- The number of keys of the matrix array built by the `AtArray` overload of
`ReadMatrix` (utils.cpp): with motion blur on and a time-varying transform,
`GetTimeSamplesInInterval` is called on the open interval from
`time.start()` to `time.end()` and two boundary keys are added
(`numKeys = timeSamples.size() + 2`); otherwise a single-key matrix is
produced. `samples` are the authored transform time samples and `animated`
is the result of the `TransformMightBeTimeVarying` test (including the
parent chain). -/
def ReadMatrixArrayKeys (time : TimeSettings) (animated : Bool) (samples : List ℚ) : Nat :=
  if time.motionBlur && animated then
    (samples.filter (fun t => decide (time.start < t ∧ t < time.end_))).length + 2
  else 1

/-- Result of the node overload of `ReadMatrix` on a node: the number of keys
of the matrix array assigned, and the values written to the node's
`motion_start` / `motion_end` attributes (none when not written). -/
structure MatrixNodeResult where
  matrixKeys : Nat
  motionStart : Option ℚ
  motionEnd : Option ℚ
deriving DecidableEq, Repr

/-- The node overload of `ReadMatrix` (utils.cpp): builds the matrix array,
and whenever it has more than one key also sets `motion_start` and
`motion_end` to the time settings' motion start and end. -/
def ReadMatrixNode (time : TimeSettings) (animated : Bool) (samples : List ℚ) :
    MatrixNodeResult :=
  let keys := ReadMatrixArrayKeys time animated samples
  if keys > 1 then ⟨keys, some time.motionStart, some time.motionEnd⟩
  else ⟨keys, none, none⟩

/-! Helper lemmas shared by the claim theorems. -/

/-- In the strict `READ_PROCESS_CONNECTIONS` step a lookup never materializes
anything: it simply reports membership in the existing node set. -/
lemma lookupOrMaterialize_strict (stage : Stage) (existing : List String)
    (target : String) (isPtr : Bool) :
    lookupOrMaterialize ReadStep.READ_PROCESS_CONNECTIONS stage existing target isPtr =
      ⟨decide (target ∈ existing), existing, false⟩ := by
  by_cases h : target ∈ existing <;> simp [lookupOrMaterialize, h]

/-- In the strict step the array-token loop succeeds exactly when every token
is an existing node, never changes the node set, and accumulates the tokens
in order on success. -/
lemma resolveArrayTokens_strict (stage : Stage) (tokens existing vec : List String) :
    resolveArrayTokens ReadStep.READ_PROCESS_CONNECTIONS stage tokens existing vec =
      if ∀ t ∈ tokens, t ∈ existing
      then (true, existing, vec ++ tokens)
      else (false, existing, []) := by
  induction tokens generalizing vec with
  | nil => simp [resolveArrayTokens]
  | cons t ts ih =>
    rw [resolveArrayTokens, lookupOrMaterialize_strict]
    by_cases h : t ∈ existing
    · simp [h, ih, List.forall_mem_cons]
    · simp [h, List.forall_mem_cons]

/-- Membership in the `supportedElems` component-tag string is exactly the
enumeration x, y, z, r, g, b, a. -/
lemma supportedElems_contains (c : Char) :
    supportedElems.data.contains c = true ↔
      (c = 'x' ∨ c = 'y' ∨ c = 'z' ∨ c = 'r' ∨ c = 'g' ∨ c = 'b' ∨ c = 'a') := by
  rw [show supportedElems.data = ['x', 'y', 'z', 'r', 'g', 'b', 'a'] from rfl]
  simp [List.contains]

/-- The rational -1/10 written with an explicit denominator agrees with the
literal. -/
lemma negPointOne_eq : negPointOne = -(1 / 10 : ℚ) := by
  rw [negPointOne, Rat.mk'_eq_divInt, Rat.divInt_eq_div]; norm_num

/-- The rational 1/10 written with an explicit denominator agrees with the
literal. -/
lemma pointOne_eq : pointOne = (1 / 10 : ℚ) := by
  rw [pointOne, Rat.mk'_eq_divInt, Rat.divInt_eq_div]; norm_num

/-! Claim theorems. -/

/-- Stage for the C1 scenario: the prim at path "a" exists and its reader
produces the node "a" (pruned but referenced, so forced materialization
succeeds); "c" does not exist on the stage at all; the node "b" already
exists (see `c1_thm`). -/
def c1Stage : Stage := ⟨["a"], ["a"], []⟩

/-- The C1 ArrayOfPointers connection listing the three names "a b c". -/
def c1Conn : Connection :=
  ⟨"src", "attr", "a b c", ConnectionType.CONNECTION_ARRAY, ""⟩

/-- C1 counterexample: in the dangling pass of the "a b c" scenario the
claimed two-element array (a, b) is never written to the source attribute —
in fact no effect at all is applied. -/
theorem c1_cex :
    Effect.setArray "src" "attr" ["a", "b"] ∉
      (ProcessConnection ReadStep.READ_DANGLING_CONNECTIONS c1Stage ["b"] c1Conn).effects := by
  decide

/-- C1 (amended): for an ArrayOfPointers connection whose target identifier
lists "a b c", where b's node exists, a is missing but can be
force-materialized, and c neither exists nor can be materialized, the
dangling-pass resolution materializes the node for a (which persists in the
node set) but then fails on c and drops the whole connection: the source
attribute is left unchanged, with no partial two-element array applied. -/
theorem c1_thm :
    ProcessConnection ReadStep.READ_DANGLING_CONNECTIONS c1Stage ["b"] c1Conn =
      ⟨false, ["a", "b"], []⟩ := by
  decide

/-- Stage for the C2 witness: nothing on the stage, nothing materializable. -/
def c2Stage : Stage := ⟨[], [], []⟩

/-- The C2 witness connection, an ArrayOfPointers targeting "a b c". -/
def c2Conn : Connection :=
  ⟨"src", "attr", "a b c", ConnectionType.CONNECTION_ARRAY, ""⟩

/-- C2: during the strict `READ_PROCESS_CONNECTIONS` step, resolving an
ArrayOfPointers connection succeeds exactly when every whitespace-separated
name in the target identifier is an existing node; the node set is never
changed, and when some listed name is missing no effect is applied to the
source attribute (no partial array) and `ProcessConnections` keeps the whole
connection in the dangling list. -/
theorem c2_thm (stage : Stage) (existing : List String) (conn : Connection)
    (htype : conn.type = ConnectionType.CONNECTION_ARRAY) :
    ((ProcessConnection ReadStep.READ_PROCESS_CONNECTIONS stage existing conn).success = true
      ↔ ∀ t ∈ getlineTokens conn.target, t ∈ existing)
    ∧ (ProcessConnection ReadStep.READ_PROCESS_CONNECTIONS stage existing conn).existing = existing
    ∧ ((ProcessConnection ReadStep.READ_PROCESS_CONNECTIONS stage existing conn).success = false →
        (ProcessConnection ReadStep.READ_PROCESS_CONNECTIONS stage existing conn).effects = []
        ∧ ProcessConnectionsLoop stage [conn] ⟨[], existing, []⟩ = ⟨[conn], existing, []⟩) := by
  have hall := resolveArrayTokens_strict stage (getlineTokens conn.target) existing []
  by_cases h : ∀ t ∈ getlineTokens conn.target, t ∈ existing
  · rw [if_pos h] at hall
    refine ⟨?_, ?_, ?_⟩
    · simp only [ProcessConnection, htype, if_pos rfl, hall]
      simpa using h
    · simp [ProcessConnection, htype, hall]
    · intro hfail
      simp [ProcessConnection, htype, hall] at hfail
  · rw [if_neg h] at hall
    refine ⟨?_, ?_, ?_⟩
    · simp only [ProcessConnection, htype, if_pos rfl, hall]
      simpa using h
    · simp [ProcessConnection, htype, hall]
    · intro _
      constructor
      · simp [ProcessConnection, htype, hall]
      · simp [ProcessConnectionsLoop, ProcessConnection, htype, hall]

/-- C2 witness: with existing nodes a and b only, the strict pass fails on
"a b c", applies no effect, and defers the whole connection. -/
theorem c2_witness :
    (ProcessConnection ReadStep.READ_PROCESS_CONNECTIONS c2Stage ["a", "b"] c2Conn).success = false
    ∧ (ProcessConnection ReadStep.READ_PROCESS_CONNECTIONS c2Stage ["a", "b"] c2Conn).effects = []
    ∧ ProcessConnectionsLoop c2Stage [c2Conn] ⟨[], ["a", "b"], []⟩ =
        ⟨[c2Conn], ["a", "b"], []⟩ := by
  have h := c2_thm c2Stage ["a", "b"] c2Conn rfl
  have hs : (ProcessConnection ReadStep.READ_PROCESS_CONNECTIONS c2Stage ["a", "b"] c2Conn).success = false := by
    cases hb : (ProcessConnection ReadStep.READ_PROCESS_CONNECTIONS c2Stage ["a", "b"] c2Conn).success
    · rfl
    · exact absurd (h.1.mp hb "c" (by decide)) (by decide)
  exact ⟨hs, (h.2.2 hs).1, (h.2.2 hs).2⟩

/-- An invisible Xform prim authoring one new inheritable primvar "pv"; it is
pruned by the visibility test. -/
def c3Pruned : Prim :=
  Prim.node ⟨"/World/X", "Xform", false, true, true, none, ["pv"]⟩ []

/-- A visible sibling prim visited right after the pruned one; it authors no
primvars of its own. -/
def c3Sibling : Prim :=
  Prim.node ⟨"/World/Y", "Sphere", false, true, false, none, []⟩ []

/-- C3: the claim states that the inherited-primvars stack entry pushed for a
pruned element is popped, so that siblings visited after it see their correct
inherited set and the stack depth stays in lock-step with traversal depth.
The code does the opposite: pruning advances the iterator past the post
visit, which is the only place the pop happens, so the pushed entry leaks.
This theorem evaluates the embedded `ReaderThread` loop on a single-threaded
traversal of a pruned prim X (authoring the primvar "pv") followed by a
sibling Y: Y is read with X's primvar set `["pv"]` instead of the empty root
set, and the stack ends with the leaked entry `["pv"]` on top instead of
being back to the single initial empty entry. -/
theorem c3_thm :
    (ReaderThread "render" 0 1 [c3Pruned, c3Sibling]).visits = [("/World/Y", ["pv"])]
    ∧ (ReaderThread "render" 0 1 [c3Pruned, c3Sibling]).primvarsStack = [["pv"], []] := by
  decide

/-- C4: within any one execution of `ReadStage`, the successive assignments
made to the reader's read step — starting from the NOT_STARTED value the
reader is constructed with — are strictly increasing in the order
NOT_STARTED, TRAVERSE, PROCESS_CONNECTIONS, DANGLING_CONNECTIONS, FINISHED;
the step never regresses before the read completes (the early-return paths
perform no assignment at all). -/
theorem c4_thm (st : ReaderState) (env : StageEnv) :
    List.Chain' (fun a b => a.toNat < b.toNat)
      (ReadStep.READ_NOT_STARTED :: (ReadStage st env).2) := by
  unfold ReadStage
  split_ifs
  · exact List.chain'_singleton _
  · exact List.chain'_singleton _
  · exact List.chain'_singleton _
  · show List.Chain' (fun a b => a.toNat < b.toNat)
      [ReadStep.READ_NOT_STARTED, ReadStep.READ_TRAVERSE,
       ReadStep.READ_PROCESS_CONNECTIONS, ReadStep.READ_DANGLING_CONNECTIONS,
       ReadStep.READ_FINISHED]
    exact List.Chain.cons (by decide) (List.Chain.cons (by decide)
      (List.Chain.cons (by decide) (List.Chain.cons (by decide) List.Chain.nil)))

/-- Reader state for the C5 witness: one node "n" already produced. -/
def c5State : ReaderState :=
  ⟨none, ⟨1, false, 0, 0⟩, true, false, 1, ["n"], none, "", 0,
   ReadStep.READ_FINISHED, []⟩

/-- Stage environment for the C5 witness. -/
def c5Env : StageEnv := ⟨true, "", true, true, ["m"], []⟩

/-- C5: whenever the reader's node list is non-empty, both overloads of
`Read` (by filename and by cache id) return immediately and leave the entire
reader state unchanged: no nodes are created or destroyed and no field is
modified. -/
theorem c5_thm (st : ReaderState) (filename : String) (cacheId : Int)
    (cacheValid : Bool) (env env2 : StageEnv) (h : st.nodes ≠ []) :
    ReadFile st filename env = st ∧ ReadCacheId st cacheId cacheValid env2 = st := by
  constructor
  · simp [ReadFile, h]
  · simp [ReadCacheId, h]

/-- C5 witness: a reader that already produced the node "n" is left untouched
by both `Read` overloads. -/
theorem c5_witness :
    c5State.nodes ≠ [] ∧ ReadFile c5State "scene.usda" c5Env = c5State
    ∧ ReadCacheId c5State 7 true c5Env = c5State :=
  ⟨by decide,
   (c5_thm c5State "scene.usda" 7 true c5Env c5Env (by decide)).1,
   (c5_thm c5State "scene.usda" 7 true c5Env c5Env (by decide)).2⟩

/-- C6: each of `SetFrame`, `SetMotionBlur`, `SetDebug` and
`SetConvertPrimitives` first clears the previously produced node list —
destroying the nodes exactly when there is no procedural parent — and resets
the default shader, and then stores the new setting. -/
theorem c6_thm (st : ReaderState) (f ms me : ℚ) (mb bdbg bcv : Bool) :
    ((SetFrame st f).nodes = [] ∧ (SetFrame st f).defaultShader = none
      ∧ (SetFrame st f).destroyedNodes =
          (if st.procParent = none then st.destroyedNodes ++ st.nodes else st.destroyedNodes)
      ∧ (SetFrame st f).time.frame = f)
    ∧ ((SetMotionBlur st mb ms me).nodes = []
      ∧ (SetMotionBlur st mb ms me).defaultShader = none
      ∧ (SetMotionBlur st mb ms me).destroyedNodes =
          (if st.procParent = none then st.destroyedNodes ++ st.nodes else st.destroyedNodes)
      ∧ (SetMotionBlur st mb ms me).time.motionBlur = mb
      ∧ (SetMotionBlur st mb ms me).time.motionStart = ms
      ∧ (SetMotionBlur st mb ms me).time.motionEnd = me)
    ∧ ((SetDebug st bdbg).nodes = [] ∧ (SetDebug st bdbg).defaultShader = none
      ∧ (SetDebug st bdbg).destroyedNodes =
          (if st.procParent = none then st.destroyedNodes ++ st.nodes else st.destroyedNodes)
      ∧ (SetDebug st bdbg).debug = bdbg)
    ∧ ((SetConvertPrimitives st bcv).nodes = []
      ∧ (SetConvertPrimitives st bcv).defaultShader = none
      ∧ (SetConvertPrimitives st bcv).destroyedNodes =
          (if st.procParent = none then st.destroyedNodes ++ st.nodes else st.destroyedNodes)
      ∧ (SetConvertPrimitives st bcv).convert = bcv) := by
  refine ⟨⟨?_, ?_, ?_, ?_⟩, ⟨?_, ?_, ?_, ?_, ?_, ?_⟩, ⟨?_, ?_, ?_, ?_⟩, ⟨?_, ?_, ?_, ?_⟩⟩ <;>
    simp [SetFrame, SetMotionBlur, SetDebug, SetConvertPrimitives, ClearNodes]

/-- The C7 witness connection carrying the recognized component tag "out:r". -/
def c7Conn : Connection :=
  ⟨"src", "base_color", "tgt", ConnectionType.CONNECTION_LINK, "out:r"⟩

/-- A C7 witness connection whose output component "out" is not a recognized
single-channel tag. -/
def c7ConnWhole : Connection :=
  ⟨"src", "base_color", "tgt", ConnectionType.CONNECTION_LINK, "out"⟩

/-- C7: when resolving a Link connection whose target node exists, a single
named channel of the target's output is linked exactly when the
outputComponent has length greater than one, its second-to-last character is
a colon, and its last character is one of x, y, z, r, g, b, a; for every
other outputComponent the whole output is linked. -/
theorem c7_thm (step : ReadStep) (stage : Stage) (existing : List String)
    (conn : Connection)
    (htype : conn.type = ConnectionType.CONNECTION_LINK)
    (hex : conn.target ∈ existing) :
    (ProcessConnection step stage existing conn).effects =
      (if conn.outputElement.data.length > 1
          ∧ conn.outputElement.data.getD (conn.outputElement.data.length - 2) ' ' = ':'
          ∧ (conn.outputElement.data.getLastD ' ' = 'x'
            ∨ conn.outputElement.data.getLastD ' ' = 'y'
            ∨ conn.outputElement.data.getLastD ' ' = 'z'
            ∨ conn.outputElement.data.getLastD ' ' = 'r'
            ∨ conn.outputElement.data.getLastD ' ' = 'g'
            ∨ conn.outputElement.data.getLastD ' ' = 'b'
            ∨ conn.outputElement.data.getLastD ' ' = 'a')
       then [Effect.linkOutput conn.target (conn.outputElement.data.getLastD ' ')
              conn.sourceNode conn.sourceAttr]
       else [Effect.link conn.target conn.sourceNode conn.sourceAttr]) := by
  have harr : conn.type ≠ ConnectionType.CONNECTION_ARRAY := by
    rw [htype]; intro hcon; cases hcon
  have hptr : conn.type ≠ ConnectionType.CONNECTION_PTR := by
    rw [htype]; intro hcon; cases hcon
  have hlook : ∀ b, lookupOrMaterialize step stage existing conn.target b =
      ⟨true, existing, false⟩ := fun b => by simp [lookupOrMaterialize, hex]
  rw [show (ProcessConnection step stage existing conn).effects = [linkEffect conn] by
    simp [ProcessConnection, harr, hptr, hlook]]
  simp only [linkEffect]
  by_cases h1 : conn.outputElement.data.length > 1
      ∧ conn.outputElement.data.getD (conn.outputElement.data.length - 2) ' ' = ':'
  · by_cases h2 : supportedElems.data.contains (conn.outputElement.data.getLastD ' ') = true
    · rw [if_pos ⟨h1.1, h1.2, h2⟩,
        if_pos ⟨h1.1, h1.2, (supportedElems_contains _).mp h2⟩]
    · rw [if_neg (fun hcon => h2 hcon.2.2),
        if_neg (fun hcon => h2 ((supportedElems_contains _).mpr hcon.2.2))]
  · rw [if_neg (fun hcon => h1 ⟨hcon.1, hcon.2.1⟩),
      if_neg (fun hcon => h1 ⟨hcon.1, hcon.2.1⟩)]

/-- Stage for the C7 witness (its content is irrelevant to link effects). -/
def c7Stage : Stage := ⟨[], [], []⟩

/-- C7 witness: with the target node "tgt" existing, the component tag
"out:r" links the single channel r, while the unrecognized tag "out" links
the whole output. -/
theorem c7_witness :
    (ProcessConnection ReadStep.READ_PROCESS_CONNECTIONS c7Stage ["tgt"] c7Conn).effects =
      [Effect.linkOutput "tgt" 'r' "src" "base_color"]
    ∧ (ProcessConnection ReadStep.READ_PROCESS_CONNECTIONS c7Stage ["tgt"] c7ConnWhole).effects =
      [Effect.link "tgt" "src" "base_color"] := by
  constructor
  · rw [c7_thm ReadStep.READ_PROCESS_CONNECTIONS c7Stage ["tgt"] c7Conn rfl (by decide)]
    decide
  · rw [c7_thm ReadStep.READ_PROCESS_CONNECTIONS c7Stage ["tgt"] c7ConnWhole rfl (by decide)]
    decide

/-- C8: with motion blur enabled and a shutter interval of exactly
[-1/10, 1/10], reading a time-varying transform produces a matrix array
whose key count is the number of transform time samples strictly inside the
interval plus two, and sets the node's motion_start / motion_end attributes
to -1/10 and 1/10 exactly; moreover, for arbitrary settings, motion_start
and motion_end are written exactly when the matrix array has more than one
key. -/
theorem c8_thm (time : TimeSettings) (samples : List ℚ)
    (hmb : time.motionBlur = true)
    (hs : time.motionStart = -(1 / 10)) (he : time.motionEnd = 1 / 10) :
    (ReadMatrixNode time true samples).matrixKeys =
      (samples.filter (fun t => decide (-(1 / 10 : ℚ) < t ∧ t < (1 / 10 : ℚ)))).length + 2
    ∧ (ReadMatrixNode time true samples).motionStart = some (-(1 / 10))
    ∧ (ReadMatrixNode time true samples).motionEnd = some (1 / 10)
    ∧ (∀ (t2 : TimeSettings) (anim : Bool) (ss : List ℚ),
        ((ReadMatrixNode t2 anim ss).motionStart = some t2.motionStart
          ∧ (ReadMatrixNode t2 anim ss).motionEnd = some t2.motionEnd)
          ↔ ReadMatrixArrayKeys t2 anim ss > 1) := by
  have hkeys : ReadMatrixArrayKeys time true samples =
      (samples.filter (fun t => decide (-(1 / 10 : ℚ) < t ∧ t < (1 / 10 : ℚ)))).length + 2 := by
    simp [ReadMatrixArrayKeys, hmb, TimeSettings.start, TimeSettings.end_, hs, he]
  have hpos : ReadMatrixArrayKeys time true samples > 1 := by rw [hkeys]; omega
  refine ⟨?_, ?_, ?_, ?_⟩
  · simp [ReadMatrixNode, hpos, hkeys]
  · simp [ReadMatrixNode, hpos, hs]
  · simp [ReadMatrixNode, hpos, he]
  · intro t2 anim ss
    by_cases hk : ReadMatrixArrayKeys t2 anim ss > 1
    · simp [ReadMatrixNode, hk]
    · simp [ReadMatrixNode, hk]

/-- Time settings for the C8 witness: frame 0, motion blur on, shutter
interval [-1/10, 1/10]. -/
def c8Time : TimeSettings := ⟨0, true, negPointOne, pointOne⟩

/-- Transform time samples for the C8 witness: 0 and 1/20 lie strictly
inside the shutter interval, 1/2 lies outside. -/
def c8Samples : List ℚ := [0, oneTwentieth, oneHalf]

/-- C8 witness: with samples 0 and 1/20 inside the interval and 1/2 outside,
the matrix array has 2 + 2 = 4 keys and motion_start / motion_end are set to
-1/10 and 1/10. -/
theorem c8_witness :
    (ReadMatrixNode c8Time true c8Samples).matrixKeys = 4
    ∧ (ReadMatrixNode c8Time true c8Samples).motionStart = some (-(1 / 10))
    ∧ (ReadMatrixNode c8Time true c8Samples).motionEnd = some (1 / 10) := by
  have h := c8_thm c8Time c8Samples rfl negPointOne_eq pointOne_eq
  refine ⟨?_, h.2.1, h.2.2.1⟩
  rw [h.1, show (c8Samples.filter (fun t => decide (-(1 / 10 : ℚ) < t ∧ t < (1 / 10 : ℚ))))
      = (c8Samples.filter (fun t => decide (negPointOne < t ∧ t < pointOne))) by
    rw [negPointOne_eq, pointOne_eq]]
  decide

/-- C9 counterexample: with a configured thread count of 2 (which is not 1),
none of the three dedicated thread-context locks is initialized, so
`CreateArnoldNode`, `AddConnection` and `AddNodeName` all skip their
lock-protected branches — refuting "the lock-protected branch is taken if
and only if thread count is not 1". -/
theorem c9_cex :
    createNodeTakesLock (workerLocks 2) = false
    ∧ addConnectionTakesLock (workerLocks 2) = false
    ∧ addNodeNameTakesLock (workerLocks 2) = false
    ∧ (2 : Nat) ≠ 1 := by decide

/-- C9 (amended): the three dedicated thread-context locks are engaged
exactly when the work dispatcher is set, which `ReadStage` does precisely
when the configured thread count is 0; in particular single-worker mode
(thread count 1) takes no lock, but neither does any plain multi-threaded
mode (thread count greater than 1), whose worker contexts are
thread-private. -/
theorem c9_thm (threadCount : Nat) :
    createNodeTakesLock (workerLocks threadCount) = (threadCount == 0)
    ∧ addConnectionTakesLock (workerLocks threadCount) = (threadCount == 0)
    ∧ addNodeNameTakesLock (workerLocks threadCount) = (threadCount == 0) := by
  by_cases h : threadCount = 0 <;>
    simp [workerLocks, SetDispatcher, stageHasDispatcher, initLocks,
      createNodeTakesLock, addConnectionTakesLock, addNodeNameTakesLock, h]

/-- C10: when `AddConnection` is invoked while the read step is neither
`READ_TRAVERSE` nor `READ_DANGLING_CONNECTIONS` (for example during
`READ_PROCESS_CONNECTIONS`, after `READ_FINISHED`, or before a read starts),
the connection is silently discarded: it is neither appended to the deferred
list nor resolved, and the thread-context state is unchanged. -/
theorem c10_thm (step : ReadStep) (stage : Stage) (st : ThreadContextState)
    (conn : Connection)
    (h1 : step ≠ ReadStep.READ_TRAVERSE)
    (h2 : step ≠ ReadStep.READ_DANGLING_CONNECTIONS) :
    AddConnection step stage st conn = st := by
  simp [AddConnection, h1, h2]

/-- Stage for the C10 witness: the connection target "b" would be resolvable,
making the discard observable. -/
def c10Stage : Stage := ⟨["a"], ["a"], []⟩

/-- Thread-context state for the C10 witness: node "b" exists. -/
def c10State : ThreadContextState := ⟨[], ["b"], []⟩

/-- The C10 witness connection, a pointer connection to the existing "b". -/
def c10Conn : Connection := ⟨"src", "attr", "b", ConnectionType.CONNECTION_PTR, ""⟩

/-- C10 witness: `AddConnection` leaves the state untouched in the
PROCESS_CONNECTIONS, FINISHED and NOT_STARTED steps, even though the target
exists and the connection could be resolved. -/
theorem c10_witness :
    AddConnection ReadStep.READ_PROCESS_CONNECTIONS c10Stage c10State c10Conn = c10State
    ∧ AddConnection ReadStep.READ_FINISHED c10Stage c10State c10Conn = c10State
    ∧ AddConnection ReadStep.READ_NOT_STARTED c10Stage c10State c10Conn = c10State :=
  ⟨c10_thm ReadStep.READ_PROCESS_CONNECTIONS c10Stage c10State c10Conn (by decide) (by decide),
   c10_thm ReadStep.READ_FINISHED c10Stage c10State c10Conn (by decide) (by decide),
   c10_thm ReadStep.READ_NOT_STARTED c10Stage c10State c10Conn (by decide) (by decide)⟩

end ArnoldUsd
